import Mathlib

/-!
Verification development for the blog-post assistant repository
(`src/App.tsx`, `src/components/ImageCustomization.tsx`,
`src/components/InputForm.tsx`, `src/services/geminiService.ts`,
`src/services/naverService.ts`, `src/types.ts`).

Shallow embedding conventions:

* Each external network capability (Gemini generation endpoints, the Naver
  search fetch) is an oracle: a function from the request data to
  `Except String result`, standing for the settled promise (`.ok`) or the
  thrown exception (`.error`).  The service-layer wrappers
  (`generateSeoTopics`, `generateImage`, `editImage`, ...) are translated
  from `geminiService.ts` on top of these oracles, including their
  catch-and-rewrap error messages and their post-processing
  (`.trim()`, `titles || []`, `data:` URL assembly, quote stripping).
* JavaScript string truthiness (`!s`) is modelled by `optStrFalsy`
  (absent or empty string); `x !== undefined` is modelled by `≠ none`.
* React state (`useState` hooks of `App`) is the `AppState` structure;
  each intent handler is a pure function `AppState → AppState`
  (parameterised by the oracles it consults).  `isLoading` and
  `loadingMessage` are not modelled: every handler sets them back in its
  `finally` block, so they carry no information at the settled states the
  claims talk about.
* Template-literal prompts are reproduced as string concatenations; the
  literal indentation whitespace of the backtick templates is not
  reproduced byte-for-byte (no claim depends on the prompt text, only on
  which prompt variant is chosen).
-/

/-- `types.ts`: `ImageSource = 'generate' | 'upload'`. -/
inductive ImageSource where
  | generate
  | upload
deriving DecidableEq

/-- `types.ts`: `ImageEditStatus = 'pending' | 'uploaded' | 'asis' | 'editing' | 'translating' | 'done' | 'error'`. -/
inductive ImageEditStatus where
  | pending
  | uploaded
  | asis
  | editing
  | translating
  | done
  | error
deriving DecidableEq

/-- A browser `File` object as far as the code observes it: its MIME
`type` and its payload (`content` stands for the base64 text that
`FileReader.readAsDataURL` would produce for the bytes). -/
structure UFile where
  mime : String
  content : String
deriving DecidableEq

/-- `types.ts`: `FormState`. `numParagraphs` is a JS number; the code only
compares it with `<= 0`, so `Int` is used. -/
structure FormState where
  blogText : String
  numParagraphs : Int
  blogName : String
  imageSource : ImageSource
deriving DecidableEq

/-- `types.ts`: `Result` — the per-paragraph record. Optional fields of the
TS interface are `Option`s. -/
structure Result where
  paragraph : String
  prompt : String
  imageUrl : String
  uploadedImageFile : Option UFile
  originalImageUrl : Option String
  editPrompt : Option String
  editStatus : ImageEditStatus
deriving DecidableEq

/-- `types.ts`: `NaverBlogItem`. -/
structure NaverBlogItem where
  title : String
  description : String
  link : String
deriving DecidableEq

instance {ε α : Type} [DecidableEq ε] [DecidableEq α] : DecidableEq (Except ε α) :=
  fun a b =>
    match a, b with
    | .error x, .error y =>
      if h : x = y then .isTrue (by rw [h])
      else .isFalse (fun hh => h (by cases hh; rfl))
    | .error _, .ok _ => .isFalse (fun hh => Except.noConfusion hh)
    | .ok _, .error _ => .isFalse (fun hh => Except.noConfusion hh)
    | .ok x, .ok y =>
      if h : x = y then .isTrue (by rw [h])
      else .isFalse (fun hh => h (by cases hh; rfl))

/-- JS falsiness of an optional string: `!x` is true when the field is
`undefined` or the empty string. -/
def optStrFalsy : Option String → Bool
  | none => true
  | some s => s.isEmpty

/-- JS truthiness of an optional string (`!!x`). -/
def optStrTruthy (o : Option String) : Bool := !(optStrFalsy o)

/-- `App.tsx`: `AppStep = 'GENERATE_TOPIC' | 'VISUALIZE_POST' | 'CUSTOMIZE_IMAGES' | 'VIEW_RESULTS'`. -/
inductive AppStep where
  | generateTopic
  | visualizePost
  | customizeImages
  | viewResults
deriving DecidableEq

/-- The `useState` hooks of the `App` component, gathered into one record.
`naverClientId`/`naverClientSecret` are the two credential strings
(initialised from localStorage, mutated only by `handleSaveApiKeys`). -/
structure AppState where
  step : AppStep
  topicIdeas : List String
  generatedPost : String
  blogName : String
  results : List Result
  naverSearchResults : List NaverBlogItem
  error : Option String
  naverWarning : Option String
  naverClientId : String
  naverClientSecret : String
deriving DecidableEq

/-- Initial `App` state: every hook at its initialiser, with the two
credentials read from persisted storage (`localStorage.getItem(k) || ''`). -/
def initialState (storedId storedSecret : Option String) : AppState :=
  { step := .generateTopic
    topicIdeas := []
    generatedPost := ""
    blogName := ""
    results := []
    naverSearchResults := []
    error := none
    naverWarning := none
    naverClientId := storedId.getD ""
    naverClientSecret := storedSecret.getD "" }

/-- One part of a Gemini image-edit response candidate: `inlineData` is
`(data, mimeType)` when present (text-only parts carry `none`). -/
structure ImgPart where
  inlineData : Option (String × String)
deriving DecidableEq

/-- The generative backend, one oracle per capability of
`geminiService.ts`.  Each oracle maps the request (the prompt string, or
the structured request parts) to the settled response or a thrown error. -/
structure Gemini where
  topicsModel : String → Except String (Option (List String))
  blogPostModel : String → Except String String
  splitModel : String → Except String (Option (List String))
  imagePromptModel : String → Except String String
  imagesModel : String → Except String (List String)
  editModel : String → String → String → Except String (List ImgPart)
  translateModel : String → Except String String

/-- Drop everything up to and including the first `'>'` (helper for the
HTML-tag-stripping regex replace). -/
def afterFirstGt : List Char → List Char
  | [] => []
  | c :: rest => if c = '>' then rest else afterFirstGt rest

/-- `title.replace(/<[^>]*>/g, '')`: each leftmost `<`...`>` run (up to the
first closing `>`) is deleted; a `<` with no later `>` never matches. -/
def stripHtmlTagsAux : List Char → List Char
  | [] => []
  | c :: rest =>
    if c = '<' ∧ rest.contains '>' then stripHtmlTagsAux (afterFirstGt rest)
    else c :: stripHtmlTagsAux rest
termination_by l => l.length
decreasing_by
  · have hle : ∀ l : List Char, (afterFirstGt l).length ≤ l.length := by
      intro l
      induction l with
      | nil => simp [afterFirstGt]
      | cons d ds ih =>
        simp only [afterFirstGt]
        split
        · simp
        · exact Nat.le_trans ih (Nat.le_succ _)
    simpa using Nat.lt_succ_of_le (hle rest)
  · simp

/-- String version of the tag-strip regex replace. -/
def stripHtmlTags (s : String) : String := ⟨stripHtmlTagsAux s.data⟩

/-- The `topTitles` block of the data-backed topics prompt:
`naverBlogs.map(blog => ...).join('\n')`. -/
def naverTopTitles (naverBlogs : List NaverBlogItem) : String :=
  String.intercalate "\n"
    (naverBlogs.map (fun blog => "- \"" ++ stripHtmlTags blog.title ++ "\""))

/-- `generateSeoTopics`: the detailed prompt used when Naver data is
available. -/
def seoTopicsPromptWithData (mainKeyword additionalKeywords : String)
    (naverBlogs : List NaverBlogItem) : String :=
  "You are an expert SEO content strategist specializing in Naver blogs in Korea.\n" ++
  "I have just analyzed the Naver API for the keyword \"" ++ mainKeyword ++
  "\" and these are the titles of the current top 10 ranking blog posts:\n---\n" ++
  naverTopTitles naverBlogs ++
  "\n---\nBased on this live analysis and incorporating the following additional keywords \"" ++
  additionalKeywords ++ "\", please generate 3 compelling, SEO-optimized blog post titles in Korean.\n" ++
  "The titles should be creative, distinct from the list above, and likely to rank high on Naver search.\n" ++
  "Return ONLY a JSON object with a \"titles\" key containing an array of 3 strings."

/-- `generateSeoTopics`: the context-free fallback prompt used when no
Naver data is available. -/
def seoTopicsPromptFallback (mainKeyword additionalKeywords : String) : String :=
  "You are an expert SEO content strategist specializing in Naver blogs in Korea.\n" ++
  "Imagine you have analyzed the top 10 Naver blog posts for the keyword \"" ++ mainKeyword ++
  "\".\nBased on that analysis and incorporating the following additional keywords \"" ++
  additionalKeywords ++ "\", please generate 3 compelling, SEO-optimized blog post titles in Korean.\n" ++
  "The titles should be catchy and likely to rank high on Naver search.\n" ++
  "Return ONLY a JSON object with a \"titles\" key containing an array of 3 strings."

/-- Prompt selection of `generateSeoTopics`:
`if (naverBlogs && naverBlogs.length > 0)` detailed `else` fallback. -/
def seoTopicsPrompt (mainKeyword additionalKeywords : String)
    (naverBlogs : List NaverBlogItem) : String :=
  if naverBlogs.length > 0 then
    seoTopicsPromptWithData mainKeyword additionalKeywords naverBlogs
  else seoTopicsPromptFallback mainKeyword additionalKeywords

/-- `generateSeoTopics` of `geminiService.ts`: builds the prompt, consults
the backend, returns `jsonResponse.titles || []`; any thrown error is
rewrapped into a fixed Korean message. -/
def generateSeoTopics (g : Gemini) (mainKeyword additionalKeywords : String)
    (naverBlogs : List NaverBlogItem) : Except String (List String) :=
  match g.topicsModel (seoTopicsPrompt mainKeyword additionalKeywords naverBlogs) with
  | .error _ => .error "Gemini API를 사용하여 블로그 주제를 생성하는 데 실패했습니다."
  | .ok titles => .ok (titles.getD [])

/-- The prompt of `generateBlogPost`; the final sentence is appended only
when `blogName` is truthy. -/
def blogPostPrompt (title blogName : String) : String :=
  "You are a helpful and engaging blog writer for Naver blogs.\n" ++
  "Write a high-quality, SEO-friendly blog post in Korean based on the following title: \"" ++
  title ++ "\".\n" ++
  "The post should be well-structured with a clear introduction, a detailed body with multiple paragraphs, and a concluding summary.\n" ++
  "Use engaging language and formatting like bullet points or numbered lists where appropriate to make the post easy to read.\n" ++
  "The tone should be friendly and informative.\n" ++
  (if blogName ≠ "" then
    "Throughout the article, naturally and appropriately mention the blog or company name \"" ++
    blogName ++ "\" where it makes sense to do so."
  else "")

/-- `generateBlogPost` of `geminiService.ts`: returns `response.text.trim()`,
rewrapping any thrown error. -/
def generateBlogPost (g : Gemini) (title blogName : String) : Except String String :=
  match g.blogPostModel (blogPostPrompt title blogName) with
  | .error _ => .error "Gemini API를 사용하여 블로그 포스트를 생성하는 데 실패했습니다."
  | .ok t => .ok t.trim

/-- The prompt of `splitTextIntoParagraphs`. -/
def splitPrompt (text : String) (count : Int) : String :=
  "Analyze the following text and divide it into exactly " ++ toString count ++
  " coherent and roughly equal-sized paragraphs.\n" ++
  "The text could be in any language, including Korean. Maintain the original tone, meaning, and language.\n\nTEXT:\n---\n" ++
  text ++ "\n---"

/-- `splitTextIntoParagraphs` of `geminiService.ts`: returns
`jsonResponse.paragraphs || []`, rewrapping any thrown error. -/
def splitTextIntoParagraphs (g : Gemini) (text : String) (count : Int) :
    Except String (List String) :=
  match g.splitModel (splitPrompt text count) with
  | .error _ => .error "Gemini API를 사용하여 텍스트를 나누는 데 실패했습니다."
  | .ok paragraphs => .ok (paragraphs.getD [])

/-- The prompt of `createImagePrompt`. -/
def imagePromptPrompt (paragraph : String) : String :=
  "Analyze the following paragraph, which may be in Korean. Create a short, visually descriptive prompt in ENGLISH for an image generation model.\n" ++
  "The prompt should capture the main theme, mood, and key subjects of the text.\n" ++
  "Be concise and artistic. Respond with only the English prompt text itself, without any extra formatting or explanation.\n\nPARAGRAPH: \"" ++
  paragraph ++ "\"\n\nPROMPT:"

/-- `createImagePrompt` of `geminiService.ts`: `response.text.trim()`,
rewrapping any thrown error. -/
def createImagePrompt (g : Gemini) (paragraph : String) : Except String String :=
  match g.imagePromptModel (imagePromptPrompt paragraph) with
  | .error _ => .error "Gemini API를 사용하여 이미지 프롬프트를 만드는 데 실패했습니다."
  | .ok t => .ok t.trim

/-- `generateImage` of `geminiService.ts`: the oracle yields the
`generatedImages` base64 byte strings; an empty list is the in-function
throw, rewrapped (like every other error) into the fixed Imagen message;
the first image is returned as a `data:image/jpeg;base64,` URL. -/
def generateImage (g : Gemini) (prompt : String) : Except String String :=
  match g.imagesModel prompt with
  | .error _ => .error "Imagen API를 사용하여 이미지를 생성하는 데 실패했습니다."
  | .ok [] => .error "Imagen API를 사용하여 이미지를 생성하는 데 실패했습니다."
  | .ok (b :: _) => .ok ("data:image/jpeg;base64," ++ b)

/-- First `inlineData` among the response parts (the `for ... of` loop of
`editImage`). -/
def firstInline : List ImgPart → Option (String × String)
  | [] => none
  | p :: ps =>
    match p.inlineData with
    | some d => some d
    | none => firstInline ps

/-- `editImage` of `geminiService.ts`: sends the base64 source and the
directive, scans the candidate parts for inline image data and rebuilds a
`data:` URL; a partless response is the in-function throw, rewrapped into
the fixed message like every other error. -/
def editImage (g : Gemini) (base64ImageData mimeType prompt : String) :
    Except String String :=
  match g.editModel base64ImageData mimeType prompt with
  | .error _ => .error "Gemini API를 사용하여 이미지를 수정하는 데 실패했습니다."
  | .ok parts =>
    match firstInline parts with
    | some (dat, m) => .ok ("data:" ++ m ++ ";base64," ++ dat)
    | none => .error "Gemini API를 사용하여 이미지를 수정하는 데 실패했습니다."

/-- The prompt of `translateToEnglish`. -/
def translatePrompt (text : String) : String :=
  "Translate the following Korean text to English. Respond with only the translated text.\n\nKorean: \"" ++
  text ++ "\"\nEnglish:"

/-- `translateToEnglish` of `geminiService.ts`:
`response.text.trim().replace(/\x22/g, '')`, rewrapping any thrown error. -/
def translateToEnglish (g : Gemini) (text : String) : Except String String :=
  match g.translateModel (translatePrompt text) with
  | .error _ => .error "Gemini API를 사용하여 텍스트를 번역하는 데 실패했습니다."
  | .ok t => .ok ((t.trim).replace "\"" "")

/-- `handleReset` of `App.tsx`: back to the initial step with every
workflow collection and message cleared (the saved credentials are not
touched). -/
def handleReset (s : AppState) : AppState :=
  { s with
    step := .generateTopic
    topicIdeas := []
    generatedPost := ""
    blogName := ""
    results := []
    error := none
    naverWarning := none
    naverSearchResults := [] }

/-- `handleFormSubmit` of `InputForm.tsx`: the local validation gate of
the visualization-setup form.  `none` models the early `return` (the
`alert` path: `onSubmit` is not invoked, so no service is contacted and no
`App` state changes); `some form` models the `onSubmit(formState)` call. -/
def handleFormSubmit (blogText : String) (numParagraphs : Int)
    (blogName : String) (imageSource : ImageSource) : Option FormState :=
  if blogText.trim = "" ∨ numParagraphs ≤ 0 then none
  else some { blogText := blogText, numParagraphs := numParagraphs,
              blogName := blogName, imageSource := imageSource }

/-- Replace the element at `index` (if any) by its image under `f`;
out-of-range indices leave the list unchanged. -/
def listModify {α : Type} : Nat → (α → α) → List α → List α
  | _, _, [] => []
  | 0, f, a :: as => f a :: as
  | n + 1, f, a :: as => a :: listModify n f as

/-- `handleUpdateResult` of `App.tsx`: `newResults[index] = { ...newResults[index], ...newResult }`.
The `Partial<Result>` merge is modelled by the field updater `upd`. -/
def handleUpdateResult (index : Nat) (upd : Result → Result) (s : AppState) : AppState :=
  { s with results := listModify index upd s.results }

/-- `FileReader.readAsDataURL` output for an upload (`fileToBase64` of
`ImageCustomization.tsx`): a `data:<mime>;base64,<payload>` URL. -/
def fileToBase64 (f : UFile) : String :=
  "data:" ++ f.mime ++ ";base64," ++ f.content

/-- `handleFileChange` of `ImageCustomization.tsx`.  `file?` is
`e.target.files?.[0]` (no file picked → no-op); `ok` is whether the
`FileReader` decode resolved (`onload`) or rejected (`onerror`). -/
def handleFileChange (file? : Option UFile) (ok : Bool) (index : Nat)
    (s : AppState) : AppState :=
  match file? with
  | none => s
  | some f =>
    if ok then
      handleUpdateResult index
        (fun r => { r with
          uploadedImageFile := some f
          originalImageUrl := some (fileToBase64 f)
          imageUrl := fileToBase64 f
          editStatus := .uploaded }) s
    else
      handleUpdateResult index (fun r => { r with editStatus := .error }) s

/-- `isReadyToFinalize` of `ImageCustomization.tsx`:
`results.every(r => !r.uploadedImageFile || r.editStatus === 'asis' || (r.editStatus === 'editing' && !!r.editPrompt))`. -/
def isReadyToFinalize (results : List Result) : Bool :=
  results.all fun r =>
    r.uploadedImageFile = none ∨ r.editStatus = .asis ∨
      (r.editStatus = .editing ∧ optStrTruthy r.editPrompt = true)

/-- `isUploadingMode` of `ImageCustomization.tsx`:
`results.some(r => r.uploadedImageFile !== undefined || r.originalImageUrl !== undefined)`
(strict `!== undefined` checks, not truthiness). -/
def isUploadingMode (results : List Result) : Bool :=
  results.any fun r =>
    r.uploadedImageFile ≠ none ∨ r.originalImageUrl ≠ none

/-- The `disabled` attribute of the finalize button of
`ImageCustomization.tsx`: `isLoading || (isUploadingMode && !isReadyToFinalize)`.
A disabled button cannot invoke `onFinalize`, so a `true` value means the
finalize intent is rejected without any network call. -/
def finalizeDisabled (isLoading : Bool) (results : List Result) : Bool :=
  isLoading || (isUploadingMode results && !(isReadyToFinalize results))

/-- `handleAnalyzeNaver` of `App.tsx`.  `nv` is the
`searchNaverBlogs(query, clientId, clientSecret)` oracle of
`naverService.ts` (the proxied fetch, response parsing and error
normalisation all happen on the network side of that call). -/
def handleAnalyzeNaver
    (nv : String → String → String → Except String (List NaverBlogItem))
    (mainKeyword : String) (s : AppState) : AppState :=
  if s.naverClientId = "" ∨ s.naverClientSecret = "" then
    { s with error := none, topicIdeas := [], naverSearchResults := [],
             naverWarning := some "네이버 API 키가 없습니다. 실시간 데이터 없이 주제를 추천합니다." }
  else
    match nv mainKeyword s.naverClientId s.naverClientSecret with
    | .ok naverBlogs =>
      { s with error := none, naverWarning := none, topicIdeas := [],
               naverSearchResults := naverBlogs }
    | .error _ =>
      { s with error := none, topicIdeas := [], naverSearchResults := [],
               naverWarning := some "네이버 API 연동에 실패했습니다. API 키 또는 프록시 설정을 확인하세요." }

/-- `handleGenerateTopics` of `App.tsx`: clears the error and the topic
list, requests topics against the current search hits, throws when the
model returned an empty list, and otherwise publishes the topics.
Errors are normalised by `handleError` as `prefix + '. 세부 정보: ' + message`. -/
def handleGenerateTopics (g : Gemini) (mainKeyword additionalKeywords : String)
    (s : AppState) : AppState :=
  match generateSeoTopics g mainKeyword additionalKeywords s.naverSearchResults with
  | .ok topics =>
    if topics = [] then
      { s with topicIdeas := [],
               error := some ("주제 생성에 실패했습니다. 세부 정보: " ++ "모델이 주제를 반환하지 않았습니다.") }
    else
      { s with topicIdeas := topics, error := none }
  | .error e =>
    { s with topicIdeas := [],
             error := some ("주제 생성에 실패했습니다. 세부 정보: " ++ e) }

/-- A freshly segmented `ParagraphResult` of `handleVisualizationSetup`:
`{ paragraph: p, prompt: '', imageUrl: '', editStatus: 'pending' }`. -/
def initParagraphResult (p : String) : Result :=
  { paragraph := p
    prompt := ""
    imageUrl := ""
    uploadedImageFile := none
    originalImageUrl := none
    editPrompt := none
    editStatus := .pending }

/-- Second half of `handleVisualizationSetup`: segment `text`, reject an
empty segmentation, build the pending collection and move to the
customization step (both image-source branches set the same step). -/
def visualizationSplit (g : Gemini) (form : FormState) (text : String)
    (s1 : AppState) : AppState :=
  match splitTextIntoParagraphs g text form.numParagraphs with
  | .error e =>
    { s1 with error := some ("시각화 준비에 실패했습니다. 세부 정보: " ++ e),
              step := .visualizePost }
  | .ok paragraphs =>
    if paragraphs = [] then
      { s1 with
        error := some ("시각화 준비에 실패했습니다. 세부 정보: " ++ "텍스트를 단락으로 나누지 못했습니다."),
        step := .visualizePost }
    else
      { s1 with results := paragraphs.map initParagraphResult,
                step := .customizeImages }

/-- `handleVisualizationSetup` of `App.tsx`: clear error and results, save
the blog name; when a name was supplied, first regenerate the post with
the name (updating `generatedPost`); then segment and initialise the
collection; on any failure revert to the setup step. -/
def handleVisualizationSetup (g : Gemini) (form : FormState) (s : AppState) :
    AppState :=
  if form.blogName ≠ "" then
    match generateBlogPost g form.blogText form.blogName with
    | .error e =>
      { s with results := [], blogName := form.blogName,
               error := some ("시각화 준비에 실패했습니다. 세부 정보: " ++ e),
               step := .visualizePost }
    | .ok finalBlogText =>
      visualizationSplit g form finalBlogText
        { s with error := none, results := [], blogName := form.blogName,
                 generatedPost := finalBlogText }
  else
    visualizationSplit g form form.blogText
      { s with error := none, results := [], blogName := form.blogName }

/-- `handleTranslate` of `App.tsx`, stage 1: mark item `index` as
`'translating'` before awaiting the translation. -/
def handleTranslateStage1 (index : Nat) (s : AppState) : AppState :=
  handleUpdateResult index (fun r => { r with editStatus := .translating }) s

/-- `handleTranslate` of `App.tsx`: no-op on falsy text; otherwise mark
the item `'translating'`, then on success store the translated directive
and return to `'editing'`, on failure surface the error (via
`handleError` with prefix `프롬프트 번역 실패`) and return to `'editing'`
leaving the directive untouched. -/
def handleTranslate (g : Gemini) (index : Nat) (textToTranslate : String)
    (s : AppState) : AppState :=
  if textToTranslate = "" then s
  else
    match translateToEnglish g textToTranslate with
    | .ok translated =>
      handleUpdateResult index
        (fun r => { r with editPrompt := some translated, editStatus := .editing })
        (handleTranslateStage1 index s)
    | .error e =>
      handleUpdateResult index (fun r => { r with editStatus := .editing })
        { handleTranslateStage1 index s with
          error := some ("프롬프트 번역 실패. 세부 정보: " ++ e) }

/-- Case-1 test of the finalize loop:
`!current.originalImageUrl && !current.uploadedImageFile` — no uploaded
image, so the entry is AI-generated. -/
def AIMode (r : Result) : Prop :=
  optStrFalsy r.originalImageUrl = true ∧ r.uploadedImageFile = none

instance (r : Result) : Decidable (AIMode r) := by
  unfold AIMode; infer_instance

/-- `current.originalImageUrl.split(',')[1]`: the payload after the first
comma of the data URL (absent pieces read as the empty string). -/
def dataUrlBase64Part (url : String) : String :=
  ((url.splitOn ",").getD 1 "")

/-- The MIME type of an upload (`current.uploadedImageFile.type`). -/
def mimeOf : Option UFile → String
  | none => ""
  | some f => f.mime

/-- Case 1 body of the finalize loop (`handleFinalizeImages`): derive a
prompt from the paragraph, synthesize an image, mark the entry done. -/
def aiGenerate (g : Gemini) (current : Result) : Except String Result :=
  match createImagePrompt g current.paragraph with
  | .error e => .error e
  | .ok prompt =>
    match generateImage g prompt with
    | .error e => .error e
    | .ok imageUrl =>
      .ok { current with prompt := prompt, imageUrl := imageUrl, editStatus := .done }

/-- Case 2 body of the finalize loop: edit the uploaded image with the
directive, mark the entry done. -/
def uploadEdit (g : Gemini) (current : Result) : Except String Result :=
  match editImage g (dataUrlBase64Part (current.originalImageUrl.getD ""))
      (mimeOf current.uploadedImageFile) (current.editPrompt.getD "") with
  | .error e => .error e
  | .ok editedImageUrl =>
    .ok { current with
      imageUrl := editedImageUrl
      prompt := "AI로 수정한 이미지: " ++ current.editPrompt.getD ""
      editStatus := .done }

/-- The body of one iteration of the `handleFinalizeImages` loop for item
`i` (0-based): the four-way case dispatch of `App.tsx`, ending in the
unconditional push of `finalResult` (here the `.ok` value). -/
def finalizeItem (g : Gemini) (i : Nat) (current : Result) : Except String Result :=
  if AIMode current then
    aiGenerate g current
  else if current.editStatus = .editing ∧ optStrTruthy current.originalImageUrl = true ∧
      optStrTruthy current.editPrompt = true ∧ current.uploadedImageFile ≠ none then
    uploadEdit g current
  else if current.editStatus = .asis ∧ optStrTruthy current.originalImageUrl = true then
    .ok { current with
      imageUrl := current.originalImageUrl.getD ""
      prompt := "업로드한 원본 이미지"
      editStatus := .done }
  else if current.editStatus ≠ .done then
    .error (toString (i + 1) ++ "번째 항목의 이미지가 준비되지 않았습니다.")
  else
    .ok current

/-- The `for` loop of `handleFinalizeImages`, started at index `i`:
returns the finalized prefix, the untouched remainder, and the thrown
error if any (the last `setResults` published `finalized ++ remainder`). -/
def finalizeLoop (g : Gemini) (i : Nat) : List Result → List Result × List Result × Option String
  | [] => ([], [], none)
  | r :: rest =>
    match finalizeItem g i r with
    | .error e => ([], r :: rest, some e)
    | .ok fr =>
      let t := finalizeLoop g (i + 1) rest
      (fr :: t.1, t.2.1, t.2.2)

/-- `handleFinalizeImages` of `App.tsx`: clear the error, run the loop; on
success publish the finalized collection and move to the results view; on
a thrown error keep the partially finalized collection, surface the
normalised error and stay on (revert to) the customization step. -/
def handleFinalizeImages (g : Gemini) (s : AppState) : AppState :=
  match (finalizeLoop g 0 s.results).2.2 with
  | none =>
    { s with error := none, results := (finalizeLoop g 0 s.results).1,
             step := .viewResults }
  | some e =>
    { s with
      error := some ("최종 콘텐츠 생성에 실패했습니다. 세부 정보: " ++ e)
      results := (finalizeLoop g 0 s.results).1 ++ (finalizeLoop g 0 s.results).2.1
      step := .customizeImages }

/-- Hypothesis of the finalize totality claim: the item is AI-mode, or
keep-original, or editing with a truthy directive. -/
def ResolvedItem (r : Result) : Prop :=
  AIMode r ∨ r.editStatus = .asis ∨
    (r.editStatus = .editing ∧ optStrTruthy r.editPrompt = true)

instance (r : Result) : Decidable (ResolvedItem r) := by
  unfold ResolvedItem; infer_instance

/-- A backend whose every capability fails (base fixture for concrete
scenarios; individual capabilities are overridden per scenario). -/
def gErrAll : Gemini :=
  { topicsModel := fun _ => .error "down"
    blogPostModel := fun _ => .error "down"
    splitModel := fun _ => .error "down"
    imagePromptModel := fun _ => .error "down"
    imagesModel := fun _ => .error "down"
    editModel := fun _ _ _ => .error "down"
    translateModel := fun _ => .error "down" }

/-- Backend fixture: prompt derivation and image synthesis succeed with
fixed fresh outputs. -/
def gW : Gemini :=
  { gErrAll with
    imagePromptModel := fun _ => .ok "fresh prompt"
    imagesModel := fun _ => .ok ["FRESH"] }

/-- Backend fixture: the topics model returns two titles. -/
def gTwoTitles : Gemini :=
  { gErrAll with topicsModel := fun _ => .ok (some ["t1", "t2"]) }

/-- Backend fixture: the topics model returns three titles. -/
def gTopics3 : Gemini :=
  { gErrAll with topicsModel := fun _ => .ok (some ["t1", "t2", "t3"]) }

/-- Backend fixture: the split model returns two paragraphs. -/
def gSplitTwo : Gemini :=
  { gErrAll with splitModel := fun _ => .ok (some ["p1", "p2"]) }

/-- Backend fixture: translation succeeds with a fixed output. -/
def gTranslateOk : Gemini :=
  { gErrAll with translateModel := fun _ => .ok "Hello" }

/-- Search oracle fixture: the proxied fetch always fails. -/
def nvDown : String → String → String → Except String (List NaverBlogItem) :=
  fun _ _ _ => .error "proxy down"

/-- A concrete upload fixture. -/
def fileW : UFile := { mime := "image/png", content := "AAAA" }

/-- A concrete still-pending item. -/
def pendingItem : Result := initParagraphResult "para"

/-- Customization-stage state with one pending item. -/
def stateUpload : AppState :=
  { initialState none none with step := .customizeImages, results := [pendingItem] }

/-- Customization-stage state with one AI-mode item. -/
def stateCustomizeAI : AppState :=
  { initialState none none with
    step := .customizeImages, results := [initParagraphResult "para one"] }

/-- An uploaded item left in editing mode with an empty directive. -/
def badEditItem : Result :=
  { pendingItem with
    uploadedImageFile := some fileW
    originalImageUrl := some (fileToBase64 fileW)
    imageUrl := fileToBase64 fileW
    editPrompt := some ""
    editStatus := .editing }

/-- An uploaded item resolved as keep-original. -/
def goodAsisItem : Result :=
  { badEditItem with editPrompt := none, editStatus := .asis }

/-- An uploaded item in editing mode with a non-empty directive. -/
def editingItem : Result :=
  { badEditItem with editPrompt := some "하늘", editStatus := .editing }

/-- Customization-stage state with one directive-editing item. -/
def stateEditing : AppState :=
  { initialState none none with step := .customizeImages, results := [editingItem] }

/-- An AI-mode item that has already been finalized once. -/
def doneAIItem : Result :=
  { paragraph := "pp"
    prompt := "old prompt"
    imageUrl := "old-url"
    uploadedImageFile := none
    originalImageUrl := none
    editPrompt := none
    editStatus := .done }

/-- An uploaded item that has already been finalized. -/
def doneUploadItem : Result :=
  { goodAsisItem with prompt := "업로드한 원본 이미지", editStatus := .done }

/-- A concrete visualization-setup submission asking for 3 paragraphs. -/
def formW : FormState :=
  { blogText := "A. B. C.", numParagraphs := 3, blogName := "",
    imageSource := .generate }

/-- The body text that `handleVisualizationSetup` goes on to segment
(`finalBlogText` in `App.tsx`): when a personalization name was supplied
the draft is first regenerated with the name via `generateBlogPost`,
otherwise it is the submitted text unchanged. -/
def effectiveBody (g : Gemini) (form : FormState) : Except String String :=
  if form.blogName ≠ "" then generateBlogPost g form.blogText form.blogName
  else .ok form.blogText

/-- A concrete submission carrying a personalization name. -/
def formN : FormState :=
  { blogText := "A. B. C.", numParagraphs := 3, blogName := "제주의 맛",
    imageSource := .upload }

/-- Backend fixture: draft regeneration and segmentation both succeed
(three paragraphs). -/
def gNameSetup : Gemini :=
  { gErrAll with
    blogPostModel := fun _ => .ok "BODY"
    splitModel := fun _ => .ok (some ["q1", "q2", "q3"]) }

/-- C9 — The reset operation, invoked from any stage, always returns the
workflow to `TopicGeneration` with the topic-candidate list, draft post,
blog name, `ParagraphResult` collection, search-hit list, error, and
advisory all cleared, regardless of the prior state; applying reset again
changes nothing (idempotence). -/
theorem handleReset_spec (s : AppState) :
    (handleReset s).step = .generateTopic ∧
    (handleReset s).topicIdeas = [] ∧
    (handleReset s).generatedPost = "" ∧
    (handleReset s).blogName = "" ∧
    (handleReset s).results = [] ∧
    (handleReset s).naverSearchResults = [] ∧
    (handleReset s).error = none ∧
    (handleReset s).naverWarning = none ∧
    handleReset (handleReset s) = handleReset s :=
  ⟨rfl, rfl, rfl, rfl, rfl, rfl, rfl, rfl, rfl⟩

/-- C8 — Submitting the visualization setup with an empty (or
whitespace-only) body or a paragraph count N ≤ 0 is rejected locally and
synchronously: `onSubmit` is never invoked (so no external service is
contacted, no stage change occurs, and no `ParagraphResult` collection is
created). -/
theorem handleFormSubmit_rejects (blogText blogName : String)
    (numParagraphs : Int) (src : ImageSource)
    (h : blogText.trim = "" ∨ numParagraphs ≤ 0) :
    handleFormSubmit blogText numParagraphs blogName src = none := by
  unfold handleFormSubmit
  rw [if_pos h]

/-- Witness for C8: the concrete submission with body "hello" and
paragraph count 0 is rejected. -/
theorem handleFormSubmit_rejects_witness :
    ("hello".trim = "" ∨ (0 : Int) ≤ 0) ∧
    handleFormSubmit "hello" 0 "" ImageSource.generate = none :=
  ⟨Or.inr (by decide),
   handleFormSubmit_rejects "hello" "" 0 ImageSource.generate (Or.inr (by decide))⟩

/-- A string append with a non-empty left factor is non-empty. -/
theorem str_append_ne_empty (s t : String) (hs : s ≠ "") : s ++ t ≠ "" := by
  intro h
  apply hs
  have hd := congrArg String.data h
  simp at hd
  exact congrArg String.mk hd.1

/-- A truthy optional string is a non-empty `some`. -/
theorem opt_truthy_some (o : Option String) (h : optStrTruthy o = true) :
    ∃ s, o = some s ∧ s ≠ "" := by
  cases o with
  | none => simp [optStrTruthy, optStrFalsy] at h
  | some s =>
    refine ⟨s, rfl, ?_⟩
    simp [optStrTruthy, optStrFalsy] at h
    intro hs
    subst hs
    simp [String.isEmpty] at h

/-- A successful image synthesis yields a non-empty data URL. -/
theorem generateImage_ok_ne (g : Gemini) (p u : String)
    (h : generateImage g p = .ok u) : u ≠ "" := by
  unfold generateImage at h
  cases him : g.imagesModel p with
  | error e => rw [him] at h; cases h
  | ok imgs =>
    rw [him] at h
    cases imgs with
    | nil => cases h
    | cons b bs =>
      injection h with h
      subst h
      exact str_append_ne_empty _ _ (by decide)

/-- A successful image edit yields a non-empty data URL. -/
theorem editImage_ok_ne (g : Gemini) (a m pr u : String)
    (h : editImage g a m pr = .ok u) : u ≠ "" := by
  unfold editImage at h
  split at h
  · cases h
  · split at h
    · injection h with h
      subst h
      exact str_append_ne_empty _ _
        (str_append_ne_empty _ _ (str_append_ne_empty _ _ (by decide)))
    · cases h

/-- A resolved item that the finalize-loop body accepts ends done with a
non-empty image. -/
theorem finalizeItem_ok_resolved (g : Gemini) (i : Nat) (r r' : Result)
    (hr : ResolvedItem r) (h : finalizeItem g i r = .ok r') :
    r'.editStatus = .done ∧ r'.imageUrl ≠ "" := by
  unfold finalizeItem at h
  split at h
  · unfold aiGenerate at h
    split at h
    · cases h
    · rename_i p hcp
      split at h
      · cases h
      · rename_i u hgi
        injection h with h
        subst h
        exact ⟨rfl, generateImage_ok_ne g p u hgi⟩
  · split at h
    · unfold uploadEdit at h
      split at h
      · cases h
      · rename_i u hei
        injection h with h
        subst h
        exact ⟨rfl, editImage_ok_ne _ _ _ _ _ hei⟩
    · split at h
      · rename_i h3
        injection h with h
        subst h
        refine ⟨rfl, ?_⟩
        obtain ⟨v, hv, hvne⟩ := opt_truthy_some _ h3.2
        show r.originalImageUrl.getD "" ≠ ""
        rw [hv]
        simpa using hvne
      · split at h
        · cases h
        · rename_i h1 h2 h3 h4
          injection h with h
          subst h
          exfalso
          have hdone : r.editStatus = .done := not_not.mp h4
          rcases hr with hai | hasis | hedit
          · exact h1 hai
          · exact absurd (hasis.symm.trans hdone) (by decide)
          · exact absurd (hedit.1.symm.trans hdone) (by decide)

/-- Invariants of the finalize loop over a resolved collection: on success
the whole collection is finalized; on failure a strict prefix is finalized
and the remainder is the untouched original suffix. -/
theorem finalizeLoop_spec (g : Gemini) :
    ∀ (rs : List Result) (i : Nat),
      (∀ r ∈ rs, ResolvedItem r) →
      (((finalizeLoop g i rs).2.2 = none →
          (finalizeLoop g i rs).1.length = rs.length ∧
          ∀ r' ∈ (finalizeLoop g i rs).1, r'.editStatus = .done ∧ r'.imageUrl ≠ "") ∧
       ((finalizeLoop g i rs).2.2 ≠ none →
          (finalizeLoop g i rs).1.length < rs.length ∧
          (finalizeLoop g i rs).2.1 = rs.drop (finalizeLoop g i rs).1.length ∧
          ∀ r' ∈ (finalizeLoop g i rs).1, r'.editStatus = .done ∧ r'.imageUrl ≠ "")) := by
  intro rs
  induction rs with
  | nil =>
    intro i h
    constructor
    · intro _
      exact ⟨rfl, by intro r' hr'; simp [finalizeLoop] at hr'⟩
    · intro hne
      exact absurd rfl hne
  | cons r rest ih =>
    intro i h
    have hr := h r (List.mem_cons_self r rest)
    have hrest : ∀ x ∈ rest, ResolvedItem x :=
      fun x hx => h x (List.mem_cons_of_mem r hx)
    cases hfi : finalizeItem g i r with
    | error e =>
      constructor
      · intro hnone
        exfalso
        simp [finalizeLoop, hfi] at hnone
      · intro _
        refine ⟨?_, ?_, ?_⟩
        · simp [finalizeLoop, hfi]
        · simp [finalizeLoop, hfi]
        · intro r' hr'
          simp [finalizeLoop, hfi] at hr'
    | ok fr =>
      have hfr := finalizeItem_ok_resolved g i r fr hr hfi
      obtain ⟨ihn, ihs⟩ := ih (i + 1) hrest
      constructor
      · intro hnone
        have hnone' : (finalizeLoop g (i + 1) rest).2.2 = none := by
          simpa [finalizeLoop, hfi] using hnone
        obtain ⟨hlen, hall⟩ := ihn hnone'
        constructor
        · simp [finalizeLoop, hfi, hlen]
        · intro r' hr'
          simp only [finalizeLoop, hfi] at hr'
          rcases List.mem_cons.mp hr' with h1 | h2
          · subst h1; exact hfr
          · exact hall r' h2
      · intro hsome
        have hsome' : (finalizeLoop g (i + 1) rest).2.2 ≠ none := by
          simpa [finalizeLoop, hfi] using hsome
        obtain ⟨hlt, hdrop, hall⟩ := ihs hsome'
        refine ⟨?_, ?_, ?_⟩
        · simp only [finalizeLoop, hfi, List.length_cons]
          omega
        · simp only [finalizeLoop, hfi, List.length_cons, List.drop_succ_cons]
          exact hdrop
        · intro r' hr'
          simp only [finalizeLoop, hfi] at hr'
          rcases List.mem_cons.mp hr' with h1 | h2
          · subst h1; exact hfr
          · exact hall r' h2

/-- `listModify` preserves the length. -/
theorem listModify_length {α : Type} (f : α → α) :
    ∀ (l : List α) (i : Nat), (listModify i f l).length = l.length := by
  intro l
  induction l with
  | nil => intro i; cases i <;> simp [listModify]
  | cons a as ih =>
    intro i
    cases i with
    | zero => simp [listModify]
    | succ n => simp [listModify, ih n]

/-- `listModify` maps the element at the modified index. -/
theorem listModify_get {α : Type} (f : α → α) :
    ∀ (l : List α) (i : Nat), (listModify i f l).get? i = (l.get? i).map f := by
  intro l
  induction l with
  | nil => intro i; cases i <;> simp [listModify]
  | cons a as ih =>
    intro i
    cases i with
    | zero => simp [listModify]
    | succ n => simpa [listModify] using ih n

/-- `listModify` leaves every other index unchanged. -/
theorem listModify_get_ne {α : Type} (f : α → α) :
    ∀ (l : List α) (i j : Nat), j ≠ i →
      (listModify i f l).get? j = l.get? j := by
  intro l
  induction l with
  | nil => intro i j _; cases i <;> simp [listModify]
  | cons a as ih =>
    intro i j hne
    cases i with
    | zero =>
      cases j with
      | zero => exact absurd rfl hne
      | succ m => simp [listModify]
    | succ n =>
      cases j with
      | zero => simp [listModify]
      | succ m =>
        simpa [listModify] using ih n m (fun hh => hne (by rw [hh]))

/-- Requesting topics against an empty search-hit list consults the
backend at the context-free fallback prompt and publishes its titles. -/
theorem handleGenerateTopics_empty_hits (g : Gemini) (mk ak : String)
    (s1 : AppState) (h0 : s1.naverSearchResults = []) (ts : List String)
    (hmod : g.topicsModel (seoTopicsPromptFallback mk ak) = .ok (some ts))
    (hts : ts ≠ []) :
    handleGenerateTopics g mk ak s1 = { s1 with topicIdeas := ts, error := none } := by
  have hGen : generateSeoTopics g mk ak s1.naverSearchResults = .ok ts := by
    rw [h0]
    unfold generateSeoTopics
    have hp : seoTopicsPrompt mk ak [] = seoTopicsPromptFallback mk ak := rfl
    rw [hp, hmod]
    rfl
  unfold handleGenerateTopics
  rw [hGen]
  show (if ts = [] then _ else _) = _
  rw [if_neg hts]

/-- C1 — For every `ParagraphResult` collection in which each item is
either AI-mode (no uploaded image), or in state `'asis'`, or in state
`'editing'` with a non-empty edit directive, the finalize pass either
transitions the workflow to the results view with every item in
`editStatus 'done'` and a non-empty final image, or aborts on some item,
reverting to the image-customization step with a strict prefix of items in
`'done'` state and all remaining items unchanged. -/
theorem finalize_total_or_prefix (g : Gemini) (s : AppState)
    (hres : ∀ r ∈ s.results, ResolvedItem r) :
    ((handleFinalizeImages g s).step = .viewResults ∧
     (handleFinalizeImages g s).results.length = s.results.length ∧
     ∀ r' ∈ (handleFinalizeImages g s).results,
       r'.editStatus = .done ∧ r'.imageUrl ≠ "") ∨
    ((handleFinalizeImages g s).step = .customizeImages ∧
     ∃ k, k < s.results.length ∧
       (handleFinalizeImages g s).results.length = s.results.length ∧
       (∀ r' ∈ (handleFinalizeImages g s).results.take k, r'.editStatus = .done) ∧
       (handleFinalizeImages g s).results.drop k = s.results.drop k) := by
  obtain ⟨hn, hab⟩ := finalizeLoop_spec g s.results 0 hres
  cases he : (finalizeLoop g 0 s.results).2.2 with
  | none =>
    left
    obtain ⟨hlen, hall⟩ := hn he
    have hfin : handleFinalizeImages g s =
        { s with error := none, results := (finalizeLoop g 0 s.results).1,
                 step := .viewResults } := by
      unfold handleFinalizeImages
      rw [he]
    rw [hfin]
    exact ⟨rfl, hlen, hall⟩
  | some e =>
    right
    obtain ⟨hlt, hdrop, hall⟩ := hab (by simp [he])
    have hfin : handleFinalizeImages g s =
        { s with
          error := some ("최종 콘텐츠 생성에 실패했습니다. 세부 정보: " ++ e)
          results := (finalizeLoop g 0 s.results).1 ++ (finalizeLoop g 0 s.results).2.1
          step := .customizeImages } := by
      unfold handleFinalizeImages
      rw [he]
    rw [hfin]
    refine ⟨rfl, (finalizeLoop g 0 s.results).1.length, hlt, ?_, ?_, ?_⟩
    · show ((finalizeLoop g 0 s.results).1 ++ (finalizeLoop g 0 s.results).2.1).length =
        s.results.length
      rw [List.length_append, hdrop, List.length_drop]
      omega
    · show ∀ r' ∈ ((finalizeLoop g 0 s.results).1 ++
          (finalizeLoop g 0 s.results).2.1).take (finalizeLoop g 0 s.results).1.length,
        r'.editStatus = .done
      rw [List.take_left]
      exact fun r' hr' => (hall r' hr').1
    · show ((finalizeLoop g 0 s.results).1 ++
          (finalizeLoop g 0 s.results).2.1).drop (finalizeLoop g 0 s.results).1.length =
        s.results.drop (finalizeLoop g 0 s.results).1.length
      rw [List.drop_left]
      exact hdrop

/-- Witness for C1: a single AI-mode pending item under a backend whose
prompt derivation and synthesis succeed. -/
theorem finalize_total_or_prefix_witness :
    (∀ r ∈ stateCustomizeAI.results, ResolvedItem r) ∧
    (((handleFinalizeImages gW stateCustomizeAI).step = AppStep.viewResults ∧
      (handleFinalizeImages gW stateCustomizeAI).results.length =
        stateCustomizeAI.results.length ∧
      ∀ r' ∈ (handleFinalizeImages gW stateCustomizeAI).results,
        r'.editStatus = ImageEditStatus.done ∧ r'.imageUrl ≠ "") ∨
     ((handleFinalizeImages gW stateCustomizeAI).step = AppStep.customizeImages ∧
      ∃ k, k < stateCustomizeAI.results.length ∧
        (handleFinalizeImages gW stateCustomizeAI).results.length =
          stateCustomizeAI.results.length ∧
        (∀ r' ∈ (handleFinalizeImages gW stateCustomizeAI).results.take k,
          r'.editStatus = ImageEditStatus.done) ∧
        (handleFinalizeImages gW stateCustomizeAI).results.drop k =
          stateCustomizeAI.results.drop k)) :=
  ⟨by decide, finalize_total_or_prefix gW stateCustomizeAI (by decide)⟩

/-- C10 — The finalize pass is not idempotent on AI-mode entries: an entry
with no uploaded image is re-sent through prompt derivation and image
synthesis (`aiGenerate`) regardless of its current `editStatus`
(including `'done'`), whereas an uploaded-image entry already in `'done'`
state is passed through unchanged. -/
theorem finalize_regenerates_ai (g : Gemini) (i : Nat) (r rDone : Result)
    (hai : AIMode r)
    (hdone : rDone.editStatus = .done)
    (hup : rDone.uploadedImageFile ≠ none ∨ optStrFalsy rDone.originalImageUrl = false) :
    finalizeItem g i r = aiGenerate g r ∧ finalizeItem g i rDone = .ok rDone := by
  constructor
  · unfold finalizeItem
    rw [if_pos hai]
  · have h1 : ¬ AIMode rDone := by
      rintro ⟨hfalsy, hfile⟩
      rcases hup with hf | ho
      · exact hf hfile
      · rw [ho] at hfalsy; cases hfalsy
    have h2 : ¬(rDone.editStatus = .editing ∧ optStrTruthy rDone.originalImageUrl = true ∧
        optStrTruthy rDone.editPrompt = true ∧ rDone.uploadedImageFile ≠ none) := by
      rintro ⟨he, -⟩
      exact absurd (hdone.symm.trans he) (by decide)
    have h3 : ¬(rDone.editStatus = .asis ∧ optStrTruthy rDone.originalImageUrl = true) := by
      rintro ⟨he, -⟩
      exact absurd (hdone.symm.trans he) (by decide)
    have h4 : ¬(rDone.editStatus ≠ .done) := not_not.mpr hdone
    unfold finalizeItem
    rw [if_neg h1, if_neg h2, if_neg h3, if_neg h4]

/-- Witness for C10: a finalized AI-mode entry is regenerated (its result
differs from pass-through), while a finalized uploaded entry is returned
unchanged. -/
theorem finalize_regenerates_ai_witness :
    (AIMode doneAIItem ∧ doneUploadItem.editStatus = ImageEditStatus.done ∧
      (doneUploadItem.uploadedImageFile ≠ none ∨
        optStrFalsy doneUploadItem.originalImageUrl = false)) ∧
    (finalizeItem gW 0 doneAIItem = aiGenerate gW doneAIItem ∧
     finalizeItem gW 0 doneUploadItem = .ok doneUploadItem) ∧
    (aiGenerate gW doneAIItem =
      .ok { doneAIItem with
        prompt := "fresh prompt".trim
        imageUrl := "data:image/jpeg;base64," ++ "FRESH"
        editStatus := ImageEditStatus.done } ∧
     ("data:image/jpeg;base64," ++ "FRESH" : String) ≠ doneAIItem.imageUrl) :=
  ⟨⟨by decide, by decide, by decide⟩,
   finalize_regenerates_ai gW 0 doneAIItem doneUploadItem (by decide) (by decide) (by decide),
   rfl, by decide⟩

/-- Counterexample for C2 — the upload-file operation leaves a
non-Finalized item with its final image set: after uploading a file for a
pending item, the item has a non-empty `imageUrl` (the preview) while its
`editStatus` is not `'done'`, so "`finalImage` is non-empty iff
`editStatus` is `'done'`" fails. -/
theorem upload_preview_breaks_final_image_iff :
    ((handleFileChange (some fileW) true 0 stateUpload).results.getD 0 pendingItem).imageUrl ≠ "" ∧
    ((handleFileChange (some fileW) true 0 stateUpload).results.getD 0 pendingItem).editStatus ≠
      ImageEditStatus.done ∧
    ((handleFileChange (some fileW) true 0 stateUpload).results.getD 0 pendingItem).editStatus =
      ImageEditStatus.uploaded := by
  decide

/-- C2 (amended) — The upload-file operation decodes the file and stores
the encoding in `uploadedImageFile`/`originalImageUrl`, but it also sets
`imageUrl` to the same encoding as a preview while moving the item to
`editStatus 'uploaded'`; hence a non-Finalized item can carry a non-empty
final-image field, and the "non-empty iff Finalized" invariant does not
hold (the workflow stage is unchanged by the upload). -/
theorem handleFileChange_sets_preview (f : UFile) (index : Nat) (s : AppState) :
    (handleFileChange (some f) true index s).results.get? index =
      (s.results.get? index).map (fun r =>
        { r with
          uploadedImageFile := some f
          originalImageUrl := some (fileToBase64 f)
          imageUrl := fileToBase64 f
          editStatus := .uploaded }) ∧
    fileToBase64 f ≠ "" ∧
    (ImageEditStatus.uploaded ≠ ImageEditStatus.done) ∧
    (handleFileChange (some f) true index s).step = s.step := by
  refine ⟨?_, ?_, by decide, rfl⟩
  · show (listModify index _ s.results).get? index = _
    exact listModify_get _ s.results index
  · unfold fileToBase64
    exact str_append_ne_empty _ _
      (str_append_ne_empty _ _ (str_append_ne_empty _ _ (by decide)))

/-- C3 — If any uploaded-image item is in `'editing'` with an empty
directive, or still undecided in `'uploaded'`, the finalize button is
disabled (its `onFinalize` handler cannot fire, so no network call is
made); if every uploaded-image item is `'asis'` or `'editing'` with a
non-empty directive (items without an upload are always eligible), the
finalize button is enabled when not loading. -/
theorem finalize_gating (results : List Result) :
    ((∃ r ∈ results, r.uploadedImageFile ≠ none ∧
        (r.editStatus = .uploaded ∨
         (r.editStatus = .editing ∧ optStrTruthy r.editPrompt = false))) →
      finalizeDisabled false results = true) ∧
    ((∀ r ∈ results, r.uploadedImageFile ≠ none →
        r.editStatus = .asis ∨ (r.editStatus = .editing ∧ optStrTruthy r.editPrompt = true)) →
      finalizeDisabled false results = false) := by
  constructor
  · rintro ⟨r, hmem, hfile, hbad⟩
    have hnotready : isReadyToFinalize results = false := by
      rw [Bool.eq_false_iff]
      intro hall
      rw [isReadyToFinalize, List.all_eq_true] at hall
      have hme := hall r hmem
      rw [decide_eq_true_eq] at hme
      rcases hme with hnone | hasis | hedit
      · exact hfile hnone
      · rcases hbad with hup | hed
        · exact absurd (hup.symm.trans hasis) (by decide)
        · exact absurd (hed.1.symm.trans hasis) (by decide)
      · rcases hbad with hup | hed
        · exact absurd (hup.symm.trans hedit.1) (by decide)
        · rw [hed.2] at hedit
          cases hedit.2
    have hup : isUploadingMode results = true := by
      rw [isUploadingMode, List.any_eq_true]
      refine ⟨r, hmem, ?_⟩
      rw [decide_eq_true_eq]
      exact Or.inl hfile
    rw [finalizeDisabled, hup, hnotready]
    rfl
  · intro hall
    have hready : isReadyToFinalize results = true := by
      rw [isReadyToFinalize, List.all_eq_true]
      intro r hmem
      rw [decide_eq_true_eq]
      by_cases hfile : r.uploadedImageFile = none
      · exact Or.inl hfile
      · rcases hall r hmem hfile with h | h
        · exact Or.inr (Or.inl h)
        · exact Or.inr (Or.inr h)
    rw [finalizeDisabled, hready]
    simp

/-- Witness for C3: a one-item collection with an empty-directive editing
upload disables finalize; a one-item keep-original collection enables it. -/
theorem finalize_gating_witness :
    ((∃ r ∈ [badEditItem], r.uploadedImageFile ≠ none ∧
        (r.editStatus = ImageEditStatus.uploaded ∨
         (r.editStatus = ImageEditStatus.editing ∧ optStrTruthy r.editPrompt = false))) ∧
      finalizeDisabled false [badEditItem] = true) ∧
    ((∀ r ∈ [goodAsisItem], r.uploadedImageFile ≠ none →
        r.editStatus = ImageEditStatus.asis ∨
        (r.editStatus = ImageEditStatus.editing ∧ optStrTruthy r.editPrompt = true)) ∧
      finalizeDisabled false [goodAsisItem] = false) :=
  ⟨⟨by decide, (finalize_gating [badEditItem]).1 (by decide)⟩,
   ⟨by decide, (finalize_gating [goodAsisItem]).2 (by decide)⟩⟩

/-- Counterexample for C4 — requesting topic ideas succeeds with a
candidate list whose length is not 3: when the model returns two titles,
the handler publishes both with no error, so "exactly 3 title strings
whenever it succeeds" fails. -/
theorem topics_success_not_three :
    (handleGenerateTopics gTwoTitles "k" "a" (initialState none none)).error = none ∧
    (handleGenerateTopics gTwoTitles "k" "a" (initialState none none)).topicIdeas.length = 2 ∧
    (handleGenerateTopics gTwoTitles "k" "a" (initialState none none)).topicIdeas.length ≠ 3 := by
  decide

/-- C4 (amended) — The request-topic-ideas operation populates the
candidate list with exactly the (non-empty) title list the model returned
— the prompt asks for 3 titles but the code does not enforce the count —
and it fails with a stage-fatal error exactly when the generation call
fails or the model returns an empty (or absent) titles list; the workflow
stage is unchanged either way. -/
theorem handleGenerateTopics_spec (g : Gemini) (mk ak : String) (s : AppState) :
    ((handleGenerateTopics g mk ak s).error = none ↔
      ∃ ts, generateSeoTopics g mk ak s.naverSearchResults = .ok ts ∧ ts ≠ []) ∧
    (∀ ts, generateSeoTopics g mk ak s.naverSearchResults = .ok ts → ts ≠ [] →
      (handleGenerateTopics g mk ak s).topicIdeas = ts ∧
      (handleGenerateTopics g mk ak s).step = s.step) := by
  cases hGen : generateSeoTopics g mk ak s.naverSearchResults with
  | error e =>
    have hH : handleGenerateTopics g mk ak s =
        { s with topicIdeas := [],
                 error := some ("주제 생성에 실패했습니다. 세부 정보: " ++ e) } := by
      unfold handleGenerateTopics
      rw [hGen]
    constructor
    · rw [hH]
      constructor
      · intro hc
        exact absurd hc (by simp)
      · rintro ⟨ts, hts, -⟩
        cases hts
    · intro ts hts
      cases hts
  | ok ts0 =>
    by_cases h0 : ts0 = []
    · subst h0
      have hH : handleGenerateTopics g mk ak s =
          { s with topicIdeas := [],
                   error := some ("주제 생성에 실패했습니다. 세부 정보: " ++ "모델이 주제를 반환하지 않았습니다.") } := by
        unfold handleGenerateTopics
        rw [hGen]
        show (if ([] : List String) = [] then _ else _) = _
        rw [if_pos rfl]
      constructor
      · rw [hH]
        constructor
        · intro hc
          exact absurd hc (by simp)
        · rintro ⟨ts, hts, hne⟩
          injection hts with hts
          exact (hne hts.symm).elim
      · intro ts hts hne
        injection hts with hts
        exact (hne hts.symm).elim
    · have hH : handleGenerateTopics g mk ak s =
          { s with topicIdeas := ts0, error := none } := by
        unfold handleGenerateTopics
        rw [hGen]
        show (if ts0 = [] then _ else _) = _
        rw [if_neg h0]
      constructor
      · rw [hH]
        exact ⟨fun _ => ⟨ts0, rfl, h0⟩, fun _ => rfl⟩
      · intro ts hts hne
        injection hts with hts
        subst hts
        rw [hH]
        exact ⟨rfl, rfl⟩

/-- Witness for C4 (amended): a model returning three titles populates the
list with exactly those three and clears the error. -/
theorem handleGenerateTopics_spec_witness :
    (generateSeoTopics gTopics3 "k" "a" (initialState none none).naverSearchResults =
      Except.ok ["t1", "t2", "t3"] ∧ (["t1", "t2", "t3"] : List String) ≠ []) ∧
    (handleGenerateTopics gTopics3 "k" "a" (initialState none none)).topicIdeas =
      ["t1", "t2", "t3"] ∧
    (handleGenerateTopics gTopics3 "k" "a" (initialState none none)).error = none :=
  ⟨⟨rfl, by decide⟩,
   ((handleGenerateTopics_spec gTopics3 "k" "a" (initialState none none)).2
      ["t1", "t2", "t3"] rfl (by decide)).1,
   (handleGenerateTopics_spec gTopics3 "k" "a" (initialState none none)).1.mpr
      ⟨["t1", "t2", "t3"], rfl, by decide⟩⟩

/-- Counterexample for C5 — a valid submission with paragraph count 3 can
produce a collection of length 2: the handler accepts whatever number of
paragraphs the segmentation returns, so "exactly length N" fails. -/
theorem setup_length_not_n :
    (handleVisualizationSetup gSplitTwo formW (initialState none none)).results.length = 2 ∧
    (handleVisualizationSetup gSplitTwo formW (initialState none none)).results.length ≠ 3 ∧
    (handleVisualizationSetup gSplitTwo formW (initialState none none)).step =
      AppStep.customizeImages ∧
    (handleVisualizationSetup gSplitTwo formW (initialState none none)).error = none ∧
    formW.numParagraphs = 3 := by
  decide

/-- C5 (amended) — Submitting valid visualization-setup input yields a
`ParagraphResult` collection that is exactly the segmentation response
mapped to initial items, in response order, each initialized with
`editStatus 'pending'` and empty prompt and image; its length is the
response length (the prompt requests exactly N but the code does not
enforce the count), and the stage moves to image customization.  The
segmented body is the submission's text, first regenerated through
`generateBlogPost` when a personalization name was supplied
(`effectiveBody`). -/
theorem handleVisualizationSetup_spec (g : Gemini) (form : FormState)
    (s : AppState) (body : String) (ps : List String)
    (hbody : effectiveBody g form = .ok body)
    (hsplit : splitTextIntoParagraphs g body form.numParagraphs = .ok ps)
    (hne : ps ≠ []) :
    (handleVisualizationSetup g form s).results = ps.map initParagraphResult ∧
    (handleVisualizationSetup g form s).step = .customizeImages ∧
    (handleVisualizationSetup g form s).results.length = ps.length ∧
    ∀ r ∈ (handleVisualizationSetup g form s).results,
      r.editStatus = .pending ∧ r.prompt = "" ∧ r.imageUrl = "" := by
  by_cases hb : form.blogName ≠ ""
  · unfold effectiveBody at hbody
    rw [if_pos hb] at hbody
    have hH : handleVisualizationSetup g form s =
        { s with error := none, results := ps.map initParagraphResult,
                 blogName := form.blogName, generatedPost := body,
                 step := .customizeImages } := by
      unfold handleVisualizationSetup
      rw [if_pos hb, hbody]
      show visualizationSplit g form body
        { s with error := none, results := [], blogName := form.blogName,
                 generatedPost := body } = _
      unfold visualizationSplit
      rw [hsplit]
      show (if ps = [] then _ else _) = _
      rw [if_neg hne]
    rw [hH]
    refine ⟨rfl, rfl, by simp, ?_⟩
    intro r hr
    simp only [List.mem_map] at hr
    obtain ⟨p, -, hp⟩ := hr
    rw [← hp]
    exact ⟨rfl, rfl, rfl⟩
  · unfold effectiveBody at hbody
    rw [if_neg hb] at hbody
    injection hbody with hbody
    subst hbody
    have hH : handleVisualizationSetup g form s =
        { s with error := none, results := ps.map initParagraphResult,
                 blogName := form.blogName, step := .customizeImages } := by
      unfold handleVisualizationSetup
      rw [if_neg hb]
      unfold visualizationSplit
      rw [hsplit]
      show (if ps = [] then _ else _) = _
      rw [if_neg hne]
    rw [hH]
    refine ⟨rfl, rfl, by simp, ?_⟩
    intro r hr
    simp only [List.mem_map] at hr
    obtain ⟨p, -, hp⟩ := hr
    rw [← hp]
    exact ⟨rfl, rfl, rfl⟩

/-- Witness for C5 (amended), both submission shapes: without a
personalization name the two-paragraph segmentation response yields
exactly those two pending items; with a name the regenerated body is
segmented into exactly the three returned pending items. -/
theorem handleVisualizationSetup_spec_witness :
    (formW.blogName = "" ∧ effectiveBody gSplitTwo formW = Except.ok "A. B. C." ∧
     splitTextIntoParagraphs gSplitTwo "A. B. C." formW.numParagraphs =
       Except.ok ["p1", "p2"] ∧ (["p1", "p2"] : List String) ≠ []) ∧
    ((handleVisualizationSetup gSplitTwo formW (initialState none none)).results =
       (["p1", "p2"]).map initParagraphResult ∧
     (handleVisualizationSetup gSplitTwo formW (initialState none none)).step =
       AppStep.customizeImages) ∧
    (formN.blogName ≠ "" ∧ effectiveBody gNameSetup formN = Except.ok ("BODY".trim) ∧
     splitTextIntoParagraphs gNameSetup ("BODY".trim) formN.numParagraphs =
       Except.ok ["q1", "q2", "q3"]) ∧
    ((handleVisualizationSetup gNameSetup formN (initialState none none)).results =
       (["q1", "q2", "q3"]).map initParagraphResult ∧
     (handleVisualizationSetup gNameSetup formN (initialState none none)).step =
       AppStep.customizeImages) := by
  have h1 := handleVisualizationSetup_spec gSplitTwo formW (initialState none none)
    "A. B. C." ["p1", "p2"] rfl rfl (by decide)
  have h2 := handleVisualizationSetup_spec gNameSetup formN (initialState none none)
    ("BODY".trim) ["q1", "q2", "q3"] rfl rfl (by decide)
  exact ⟨⟨rfl, rfl, rfl, by decide⟩, ⟨h1.1, h1.2.1⟩, ⟨by decide, rfl, rfl⟩,
    ⟨h2.1, h2.2.1⟩⟩

/-- C6 — When the search credentials are absent or the search call fails,
exactly one non-fatal advisory is surfaced (`naverWarning` set, `error`
cleared), the workflow stage remains `TopicGeneration`, and a subsequent
topic request is served through the context-free fallback prompt (the
search-hit list is empty) and succeeds whenever the model returns a
non-empty title list. -/
theorem search_failure_nonblocking
    (nv : String → String → String → Except String (List NaverBlogItem))
    (g : Gemini) (mainKeyword mk2 ak : String) (s : AppState)
    (hstep : s.step = .generateTopic)
    (hfail : s.naverClientId = "" ∨ s.naverClientSecret = "" ∨
      ∃ e, nv mainKeyword s.naverClientId s.naverClientSecret = .error e) :
    (∃ w, (handleAnalyzeNaver nv mainKeyword s).naverWarning = some w) ∧
    (handleAnalyzeNaver nv mainKeyword s).error = none ∧
    (handleAnalyzeNaver nv mainKeyword s).step = .generateTopic ∧
    (handleAnalyzeNaver nv mainKeyword s).naverSearchResults = [] ∧
    (∀ ts, g.topicsModel (seoTopicsPromptFallback mk2 ak) = .ok (some ts) → ts ≠ [] →
      (handleGenerateTopics g mk2 ak (handleAnalyzeNaver nv mainKeyword s)).topicIdeas = ts ∧
      (handleGenerateTopics g mk2 ak (handleAnalyzeNaver nv mainKeyword s)).error = none ∧
      (handleGenerateTopics g mk2 ak (handleAnalyzeNaver nv mainKeyword s)).step =
        .generateTopic) := by
  have hshape : ∃ w, handleAnalyzeNaver nv mainKeyword s =
      { s with error := none, topicIdeas := [], naverSearchResults := [],
               naverWarning := some w } := by
    by_cases hcred : s.naverClientId = "" ∨ s.naverClientSecret = ""
    · refine ⟨"네이버 API 키가 없습니다. 실시간 데이터 없이 주제를 추천합니다.", ?_⟩
      unfold handleAnalyzeNaver
      rw [if_pos hcred]
    · obtain ⟨e, he⟩ : ∃ e, nv mainKeyword s.naverClientId s.naverClientSecret = .error e := by
        rcases hfail with h1 | h2 | h3
        · exact absurd (Or.inl h1) hcred
        · exact absurd (Or.inr h2) hcred
        · exact h3
      refine ⟨"네이버 API 연동에 실패했습니다. API 키 또는 프록시 설정을 확인하세요.", ?_⟩
      unfold handleAnalyzeNaver
      rw [if_neg hcred, he]
  obtain ⟨w, hA⟩ := hshape
  rw [hA]
  refine ⟨⟨w, rfl⟩, rfl, hstep, rfl, ?_⟩
  intro ts hmod hts
  rw [handleGenerateTopics_empty_hits g mk2 ak _ rfl ts hmod hts]
  exact ⟨rfl, rfl, hstep⟩

/-- Witness for C6: missing credentials surface the advisory and a
three-title model then succeeds via the fallback path. -/
theorem search_failure_nonblocking_witness :
    ((initialState none none).step = AppStep.generateTopic ∧
      (initialState none none).naverClientId = "") ∧
    (handleAnalyzeNaver nvDown "키워드" (initialState none none)).error = none ∧
    (handleAnalyzeNaver nvDown "키워드" (initialState none none)).step =
      AppStep.generateTopic ∧
    (handleAnalyzeNaver nvDown "키워드" (initialState none none)).naverSearchResults = [] ∧
    (handleGenerateTopics gTopics3 "k2" "a"
        (handleAnalyzeNaver nvDown "키워드" (initialState none none))).topicIdeas =
      ["t1", "t2", "t3"] ∧
    (handleGenerateTopics gTopics3 "k2" "a"
        (handleAnalyzeNaver nvDown "키워드" (initialState none none))).error = none := by
  have h := search_failure_nonblocking nvDown gTopics3 "키워드" "k2" "a"
    (initialState none none) rfl (Or.inl rfl)
  exact ⟨⟨rfl, rfl⟩, h.2.1, h.2.2.1, h.2.2.2.1,
    (h.2.2.2.2 ["t1", "t2", "t3"] rfl (by decide)).1,
    (h.2.2.2.2 ["t1", "t2", "t3"] rfl (by decide)).2.1⟩

/-- C7 — The translate-directive operation for item `i` first sets that
item to `'translating'`; on success it stores the translated text as the
directive and returns the item to `'editing'`; on failure it returns the
item to `'editing'` with its directive untouched and surfaces one error;
in neither case does the workflow stage change, and no other item is
touched. -/
theorem handleTranslate_spec (g : Gemini) (index : Nat) (text : String)
    (s : AppState) (ht : text ≠ "") :
    ((handleTranslateStage1 index s).results.get? index =
       (s.results.get? index).map (fun r => { r with editStatus := .translating })) ∧
    (handleTranslate g index text s).step = s.step ∧
    (handleTranslate g index text s).results.length = s.results.length ∧
    (∀ j, j ≠ index → (handleTranslate g index text s).results.get? j = s.results.get? j) ∧
    (match translateToEnglish g text with
     | .ok translated =>
       (handleTranslate g index text s).error = s.error ∧
       (handleTranslate g index text s).results.get? index =
         (s.results.get? index).map (fun r =>
           { r with editPrompt := some translated, editStatus := .editing })
     | .error e =>
       (handleTranslate g index text s).error =
         some ("프롬프트 번역 실패. 세부 정보: " ++ e) ∧
       (handleTranslate g index text s).results.get? index =
         (s.results.get? index).map (fun r => { r with editStatus := .editing })) := by
  refine ⟨listModify_get _ s.results index, ?_⟩
  cases htr : translateToEnglish g text with
  | ok translated =>
    have hH : handleTranslate g index text s =
        handleUpdateResult index
          (fun r => { r with editPrompt := some translated, editStatus := .editing })
          (handleTranslateStage1 index s) := by
      unfold handleTranslate
      rw [if_neg ht, htr]
    rw [hH]
    refine ⟨rfl, ?_, ?_, rfl, ?_⟩
    · show (listModify index _ (listModify index _ s.results)).length = s.results.length
      rw [listModify_length, listModify_length]
    · intro j hj
      show (listModify index _ (listModify index _ s.results)).get? j = s.results.get? j
      rw [listModify_get_ne _ _ _ _ hj, listModify_get_ne _ _ _ _ hj]
    · show (listModify index _ (listModify index _ s.results)).get? index = _
      rw [listModify_get, listModify_get]
      cases s.results.get? index <;> rfl
  | error e =>
    have hH : handleTranslate g index text s =
        handleUpdateResult index (fun r => { r with editStatus := .editing })
          { handleTranslateStage1 index s with
            error := some ("프롬프트 번역 실패. 세부 정보: " ++ e) } := by
      unfold handleTranslate
      rw [if_neg ht, htr]
    rw [hH]
    refine ⟨rfl, ?_, ?_, rfl, ?_⟩
    · show (listModify index _ (listModify index _ s.results)).length = s.results.length
      rw [listModify_length, listModify_length]
    · intro j hj
      show (listModify index _ (listModify index _ s.results)).get? j = s.results.get? j
      rw [listModify_get_ne _ _ _ _ hj, listModify_get_ne _ _ _ _ hj]
    · show (listModify index _ (listModify index _ s.results)).get? index = _
      rw [listModify_get, listModify_get]
      cases s.results.get? index <;> rfl

/-- Witness for C7: translating a non-empty directive on a one-item
collection stores the translated text and returns the item to editing,
with the stage unchanged. -/
theorem handleTranslate_spec_witness :
    ("하늘" ≠ "") ∧
    (handleTranslate gTranslateOk 0 "하늘" stateEditing).step = stateEditing.step ∧
    (handleTranslate gTranslateOk 0 "하늘" stateEditing).error = stateEditing.error ∧
    (handleTranslate gTranslateOk 0 "하늘" stateEditing).results.get? 0 =
      (stateEditing.results.get? 0).map (fun r =>
        { r with editPrompt := some (("Hello".trim).replace "\"" ""),
                 editStatus := ImageEditStatus.editing }) := by
  have h := handleTranslate_spec gTranslateOk 0 "하늘" stateEditing (by decide)
  have htr : translateToEnglish gTranslateOk "하늘" =
      .ok (("Hello".trim).replace "\"" "") := rfl
  rw [htr] at h
  exact ⟨by decide, h.2.1, h.2.2.2.2.1, h.2.2.2.2.2⟩
